import Mathlib

/-!
Verification of `src/web/info/views.py` (the `info` request handler of a
Django application).

The handler's source:

```python
def info(request):
    #return HttpResponse("Welcome to the Info Page")
    template = loader.get_template("info/index.html")
    return render(request, "info/index.html")
```

The surrounding framework (Django) supplies `loader.get_template` and the
`render` shortcut.  The template-resolution collaborator (which template,
if any, a name resolves to, and what rendering that template performs) is
kept abstract as a `TemplateEngine`; the fixed plumbing of the shortcut
(`render(request, name)` = `HttpResponse(render_to_string(name, None,
request), content_type=None, status=None)`, with `HttpResponse` defaulting
to status 200 and content type `text/html; charset=utf-8`) is embedded
directly.  Exceptions are modelled with `Except`.
-/

namespace Web.Info

/-- The inbound HTTP request value.  The handler treats it as opaque; the
fields listed here stand for its observable content (method, path, headers,
query parameters). -/
structure HttpRequest where
  method : String
  path : String
  headers : List (String × String)
  queryParams : List (String × String)
deriving DecidableEq, Repr

/-- A handler-supplied template context (Django: the `context` dict argument
of `render`).  Modelled as an association list of string bindings; the
handler under verification never supplies one. -/
abbrev Context : Type := List (String × String)

/-- Exceptions the template collaborator can raise: Django's
`TemplateDoesNotExist` on lookup and template errors during rendering. -/
inductive TemplateError where
  | templateDoesNotExist (name : String)
  | renderingFailure (msg : String)
deriving DecidableEq, Repr

/-- A resolved template.  Its only capability is rendering: given an
optional handler-supplied context and an optional request, it produces the
rendered string or raises.  This is Django's `Template.render(context,
request)`; request-dependence (e.g. via context processors) is allowed. -/
structure Template where
  render : Option Context → Option HttpRequest → Except TemplateError String

/-- The template-resolution collaborator: maps a template identifier to a
renderable template, or raises `TemplateDoesNotExist`.  This is the
behaviour of `django.template.loader.get_template`. -/
structure TemplateEngine where
  get_template : String → Except TemplateError Template

/-- The outbound HTTP response (Django `HttpResponse`): status code,
content type, body. -/
structure HttpResponse where
  status : Nat
  contentType : String
  body : String
deriving DecidableEq, Repr

/-- Django's `settings.DEFAULT_CHARSET` default. -/
def DEFAULT_CHARSET : String := "utf-8"

/-- The content type an `HttpResponse` carries when none is given
explicitly: `"text/html; charset=" + DEFAULT_CHARSET`. -/
def defaultContentType : String := "text/html; charset=" ++ DEFAULT_CHARSET

/-- `django.template.loader.render_to_string(template_name, context,
request)`: resolve the template by name, then render it with the given
context and request.  Failures of either step propagate. -/
def render_to_string (E : TemplateEngine) (template_name : String)
    (context : Option Context) (request : Option HttpRequest) :
    Except TemplateError String := do
  let template ← E.get_template template_name
  template.render context request

/-- `django.shortcuts.render(request, template_name, context, content_type,
status)`: render the template to a string and wrap it in an `HttpResponse`,
defaulting the status to 200 and the content type to
`text/html; charset=utf-8`. -/
def render (E : TemplateEngine) (request : HttpRequest)
    (template_name : String) (context : Option Context)
    (content_type : Option String) (status : Option Nat) :
    Except TemplateError HttpResponse := do
  let content ← render_to_string E template_name context (some request)
  pure ⟨status.getD 200, content_type.getD defaultContentType, content⟩

/-- The handler `info` of `src/web/info/views.py`, line for line:
`template = loader.get_template("info/index.html")` followed by
`return render(request, "info/index.html")`.  The commented-out
`HttpResponse("Welcome to the Info Page")` line is dead text in the source
and has no counterpart here. -/
def info (E : TemplateEngine) (request : HttpRequest) :
    Except TemplateError HttpResponse := do
  let _template ← E.get_template "info/index.html"
  render E request "info/index.html" none none none

/-- Modelled from the spec: the repository's template resource
`info/index.html` lives outside `src/` (only `views.py` is given).  The
spec describes it as "a static template page ... with no dynamic context"
whose rendered output is "the static page content defined by the template";
accordingly a static template renders to a fixed string, ignoring both the
context and the request. -/
def staticTemplate (content : String) : Template :=
  ⟨fun _ _ => Except.ok content⟩

/-- Modelled from the spec: a template engine holding the repository's
single static template under the identifier `info/index.html`; any other
identifier raises `TemplateDoesNotExist`, as `loader.get_template` does. -/
def staticEngine (content : String) : TemplateEngine :=
  ⟨fun name =>
    if name = "info/index.html" then Except.ok (staticTemplate content)
    else Except.error (.templateDoesNotExist name)⟩

/-- An engine in which every lookup raises `TemplateDoesNotExist`: the
deployment in which the template resource is absent. -/
def missingEngine : TemplateEngine :=
  ⟨fun name => Except.error (.templateDoesNotExist name)⟩

/-- A sample concrete request, used to instantiate universally quantified
theorems. -/
def req0 : HttpRequest :=
  ⟨"GET", "/info/", [], []⟩

/-- A second sample request differing from `req0` in method, headers and
query parameters. -/
def req1 : HttpRequest :=
  ⟨"POST", "/info/", [("X-Debug", "1")], [("q", "42")]⟩

/-! ## Stateful embedding

To settle the frame and statelessness claims, the handler is re-embedded
with an explicit external world threaded through it.  The world collects
everything outside the handler's own locals that the spec names: storage,
logs, global variables.  Each Python statement of the handler becomes a
step receiving and returning the world; the source contains no statement
that writes to any of these, and the collaborator is the same pure
`TemplateEngine` as above, so each step passes the world through. -/

/-- The external state the handler could in principle mutate: storage,
logs, global variables. -/
structure World where
  storage : List (String × String)
  logs : List String
  globals : List (String × String)
deriving DecidableEq, Repr

/-- The `info` handler as an explicit state transformer over `World`.
Statement 1 (`template = loader.get_template(...)`) reads through the
engine and binds a local; statement 2 returns `render(request, ...)`.
Neither statement contains a write to storage, logs or globals. -/
def infoSt (E : TemplateEngine) (request : HttpRequest) (w : World) :
    (Except TemplateError HttpResponse) × World :=
  match E.get_template "info/index.html" with
  | .error e => (.error e, w)
  | .ok _template => (render E request "info/index.html" none none none, w)

/-- A sample concrete world. -/
def w0 : World :=
  ⟨[("key", "value")], ["boot"], [("DEBUG", "False")]⟩

/-! ## Trace embedding

To settle the claims about which collaborator calls the handler makes, and
in which order, the handler is re-embedded once more with an event trace:
one `lookup` event per `get_template` consultation and one `renderCall`
event (recording the handler-supplied context) per `Template.render`
invocation. -/

/-- Observable collaborator events: a template lookup by name, and a
template-render invocation recording the handler-supplied context. -/
inductive TraceEv where
  | lookup (name : String)
  | renderCall (name : String) (context : Option Context)
deriving DecidableEq, Repr

/-- `loader.get_template` with its lookup event. -/
def get_templateTr (E : TemplateEngine) (name : String) :
    Except TemplateError Template × List TraceEv :=
  (E.get_template name, [.lookup name])

/-- `django.shortcuts.render` with its event trace: one lookup (inside
`render_to_string`), then — only if the lookup succeeded — one render
invocation. -/
def renderTr (E : TemplateEngine) (request : HttpRequest)
    (template_name : String) (context : Option Context) :
    Except TemplateError HttpResponse × List TraceEv :=
  match E.get_template template_name with
  | .error e => (.error e, [.lookup template_name])
  | .ok template =>
    match template.render context (some request) with
    | .error e => (.error e, [.lookup template_name, .renderCall template_name context])
    | .ok content =>
      (.ok ⟨200, defaultContentType, content⟩,
        [.lookup template_name, .renderCall template_name context])

/-- The `info` handler with its event trace: the explicit
`loader.get_template` line first, then the `render` shortcut. -/
def infoTr (E : TemplateEngine) (request : HttpRequest) :
    Except TemplateError HttpResponse × List TraceEv :=
  match get_templateTr E "info/index.html" with
  | (.error e, tr) => (.error e, tr)
  | (.ok _template, tr) =>
    let r := renderTr E request "info/index.html" none
    (r.1, tr ++ r.2)

/-- The number of `lookup` events in a trace. -/
def lookupCount (tr : List TraceEv) : Nat :=
  tr.countP fun ev => match ev with
    | .lookup _ => true
    | _ => false

/-- The `info` handler with the dead assignment
`template = loader.get_template("info/index.html")` removed: only
`return render(request, "info/index.html")` remains. -/
def infoNoDeadLine (E : TemplateEngine) (request : HttpRequest) :
    Except TemplateError HttpResponse :=
  render E request "info/index.html" none none none

/-! ## Helper lemmas -/

/-- Unfolding of the handler: it raises the lookup error, raises the
rendering error, or wraps the rendered content in a status-200 response
with the default content type. -/
theorem info_eq (E : TemplateEngine) (request : HttpRequest) :
    info E request =
      match E.get_template "info/index.html" with
      | .error e => .error e
      | .ok template =>
        match template.render none (some request) with
        | .error e => .error e
        | .ok content => .ok ⟨200, defaultContentType, content⟩ := by
  unfold info render render_to_string
  cases h : E.get_template "info/index.html" with
  | error e => simp [Bind.bind, Except.bind, h]
  | ok template =>
    cases h2 : template.render none (some request) <;>
      simp [Bind.bind, Except.bind, Pure.pure, Except.pure, h, h2]

/-- On the spec-modelled static engine the handler always returns the
static page wrapped in a default response. -/
theorem info_staticEngine (content : String) (request : HttpRequest) :
    info (staticEngine content) request =
      .ok ⟨200, defaultContentType, content⟩ := by
  rw [info_eq]
  simp [staticEngine, staticTemplate]

/-- The traced handler computes the same result as the plain handler. -/
theorem infoTr_fst (E : TemplateEngine) (request : HttpRequest) :
    (infoTr E request).1 = info E request := by
  rw [info_eq]
  unfold infoTr get_templateTr renderTr
  cases h : E.get_template "info/index.html" with
  | error e => simp [h]
  | ok template => cases h2 : template.render none (some request) <;> simp [h, h2]

/-- Unfolding of the traced handler: either the single failing lookup, or
two lookups followed by the one render invocation with context `none`. -/
theorem infoTr_eq (E : TemplateEngine) (request : HttpRequest) :
    infoTr E request =
      match E.get_template "info/index.html" with
      | .error e => (.error e, [.lookup "info/index.html"])
      | .ok template =>
        match template.render none (some request) with
        | .error e =>
          (.error e,
            [.lookup "info/index.html", .lookup "info/index.html",
              .renderCall "info/index.html" none])
        | .ok content =>
          (.ok ⟨200, defaultContentType, content⟩,
            [.lookup "info/index.html", .lookup "info/index.html",
              .renderCall "info/index.html" none]) := by
  unfold infoTr get_templateTr renderTr
  cases h : E.get_template "info/index.html" with
  | error e => simp [h]
  | ok template => cases h2 : template.render none (some request) <;> simp [h, h2]

/-! ## Claim theorems -/

/-- Claim C1: with the repository's template (a static page, modelled from
the spec), the handler's response — in particular its body — is the same
for any two requests, however they differ in method, headers or query
parameters: the handler reads nothing from the request value. -/
theorem info_request_independent (content : String)
    (request1 request2 : HttpRequest) :
    info (staticEngine content) request1 = info (staticEngine content) request2 := by
  rw [info_staticEngine, info_staticEngine]

/-- Claim C2: whenever the handler succeeds (template resolution and
rendering succeed), the returned response has HTTP status 200. -/
theorem info_status_200 (E : TemplateEngine) (request : HttpRequest)
    (response : HttpResponse) (h : info E request = .ok response) :
    response.status = 200 := by
  rw [info_eq] at h
  split at h
  · simp at h
  · split at h
    · simp at h
    · cases h
      rfl

/-- Claim C3: the handler raises exactly when a collaborator call raises,
and the error is the collaborator's error unchanged — either the lookup's
`TemplateDoesNotExist`, or the failure of rendering the resolved template.
No error is caught, retried or replaced by a handler-made response. -/
theorem info_error_iff (E : TemplateEngine) (request : HttpRequest)
    (e : TemplateError) :
    info E request = .error e ↔
      (E.get_template "info/index.html" = .error e ∨
        ∃ template, E.get_template "info/index.html" = .ok template ∧
          template.render none (some request) = .error e) := by
  rw [info_eq]
  cases hg : E.get_template "info/index.html" with
  | error e2 => simp [hg]
  | ok template =>
    cases hr : template.render none (some request) with
    | error e2 => simp [hg, hr]
    | ok content => simp [hg, hr]

/-- Claim C3, instantiated: with the template resource absent, the handler
raises the lookup's `TemplateDoesNotExist` unchanged. -/
theorem info_error_iff_witness :
    info missingEngine req0 =
      .error (.templateDoesNotExist "info/index.html") :=
  (info_error_iff missingEngine req0
    (.templateDoesNotExist "info/index.html")).mpr (Or.inl rfl)

/-- Claim C4: with the repository's template (a static page, modelled from
the spec), every invocation of the handler produces a response: the handler
is a total function from requests to responses. -/
theorem info_total (content : String) (request : HttpRequest) :
    ∃ response, info (staticEngine content) request = .ok response :=
  ⟨⟨200, defaultContentType, content⟩, info_staticEngine content request⟩

/-- Claim C5: invoking the handler leaves every piece of state outside its
own locals — storage, logs, global variables — unchanged: the world after
the invocation is the world before it, whatever engine, request and world. -/
theorem infoSt_frame (E : TemplateEngine) (request : HttpRequest)
    (w : World) : (infoSt E request w).2 = w := by
  unfold infoSt
  cases E.get_template "info/index.html" <;> rfl

/-- Claim C6: the handler is pure and stateless: invoking it a second time
with the same request and engine, from the state the first invocation left
behind, returns the same response, and the state after both invocations is
still the initial one — no state carried between invocations can change the
result. -/
theorem infoSt_stateless (E : TemplateEngine) (request : HttpRequest)
    (w : World) :
    (infoSt E request ((infoSt E request w).2)).1 = (infoSt E request w).1 ∧
      (infoSt E request ((infoSt E request w).2)).2 = w := by
  unfold infoSt
  cases E.get_template "info/index.html" <;> exact ⟨rfl, rfl⟩

/-- Claim C7: the local `template = loader.get_template("info/index.html")`
is dead: the handler equals, on every engine and request, the handler with
that line removed — same response on success, same propagated error on
failure. -/
theorem info_dead_line (E : TemplateEngine) (request : HttpRequest) :
    info E request = infoNoDeadLine E request := by
  rw [info_eq]
  unfold infoNoDeadLine render render_to_string
  cases h : E.get_template "info/index.html" with
  | error e => simp [Bind.bind, Except.bind, h]
  | ok template =>
    cases h2 : template.render none (some request) <;>
      simp [Bind.bind, Except.bind, Pure.pure, Except.pure, h, h2]

/-- Claim C8: when the lookup succeeds the handler consults the
template-resolution collaborator for `"info/index.html"` exactly twice
(once in the explicit `loader.get_template`, once inside `render`); when
the template does not exist the handler raises the first lookup's error
after a single lookup event and no render invocation — render is never
called. -/
theorem info_lookup_twice (E : TemplateEngine) (request : HttpRequest) :
    ((∃ template, E.get_template "info/index.html" = .ok template) →
      lookupCount (infoTr E request).2 = 2) ∧
    (∀ e, E.get_template "info/index.html" = .error e →
      infoTr E request = (.error e, [TraceEv.lookup "info/index.html"])) := by
  constructor
  · rintro ⟨template, h⟩
    rw [infoTr_eq]
    cases h2 : template.render none (some request) <;>
      simp [h, h2, lookupCount, List.countP, List.countP.go]
  · intro e h
    rw [infoTr_eq]
    simp [h]

/-- Claim C8, instantiated: on the spec-modelled static engine the lookup
succeeds and the collaborator is consulted exactly twice; on the engine
with the template absent, the invocation is a single failing lookup with
render never called. -/
theorem info_lookup_twice_witness :
    lookupCount (infoTr (staticEngine "page") req0).2 = 2 ∧
      infoTr missingEngine req0 =
        (.error (.templateDoesNotExist "info/index.html"),
          [TraceEv.lookup "info/index.html"]) :=
  ⟨(info_lookup_twice (staticEngine "page") req0).1
      ⟨staticTemplate "page", rfl⟩,
    (info_lookup_twice missingEngine req0).2
      (.templateDoesNotExist "info/index.html") rfl⟩

/-- Claim C9: the handler supplies no context to `render`: every render
invocation it performs carries the context `none`, so on success the
response body is exactly the template rendered with no handler-supplied
variables — only the request (and whatever the engine's rendering derives
from it) is available to the template. -/
theorem info_no_context (E : TemplateEngine) (request : HttpRequest) :
    (∀ name context, TraceEv.renderCall name context ∈ (infoTr E request).2 →
      context = none) ∧
    (∀ response, info E request = .ok response →
      ∃ template, E.get_template "info/index.html" = .ok template ∧
        template.render none (some request) = .ok response.body) := by
  constructor
  · intro name context hmem
    rw [infoTr_eq] at hmem
    split at hmem
    · simp at hmem
    all_goals split at hmem <;> simp at hmem <;> exact hmem.2
  · intro response hok
    rw [info_eq] at hok
    split at hok
    · simp at hok
    · rename_i template hg
      split at hok
      · simp at hok
      · rename_i content hr
        cases hok
        exact ⟨template, hg, hr⟩

/-- Claim C9, instantiated: on the spec-modelled static engine, the one
render invocation in the trace carries context `none`, and the response
body is the template rendered with no handler-supplied variables. -/
theorem info_no_context_witness :
    (none : Option Context) = none ∧
      ∃ template,
        (staticEngine "static page").get_template "info/index.html" =
          .ok template ∧
        template.render none (some req0) = .ok "static page" :=
  ⟨(info_no_context (staticEngine "static page") req0).1 "info/index.html"
      none (by rw [infoTr_eq]; simp [staticEngine, staticTemplate]),
    (info_no_context (staticEngine "static page") req0).2
      ⟨200, defaultContentType, "static page"⟩
      (info_staticEngine "static page" req0)⟩

/-- Claim C10: whenever the handler succeeds, the response carries the
framework's default content type `text/html; charset=utf-8`, since `render`
is called without an explicit content type. -/
theorem info_default_content_type (E : TemplateEngine)
    (request : HttpRequest) (response : HttpResponse)
    (h : info E request = .ok response) :
    response.contentType = "text/html; charset=utf-8" := by
  rw [info_eq] at h
  split at h
  · simp at h
  · split at h
    · simp at h
    · cases h
      rfl

/-- Claim C10, instantiated: a successful invocation on the spec-modelled
static engine yields the default content type. -/
theorem info_default_content_type_witness :
    info (staticEngine "body") req1 =
        .ok ⟨200, defaultContentType, "body"⟩ ∧
      (⟨200, defaultContentType, "body"⟩ : HttpResponse).contentType =
        "text/html; charset=utf-8" :=
  ⟨info_staticEngine "body" req1,
    info_default_content_type (staticEngine "body") req1
      ⟨200, defaultContentType, "body"⟩ (info_staticEngine "body" req1)⟩

/-- Claim C2, instantiated: a successful invocation on the spec-modelled
static engine yields status 200. -/
theorem info_status_200_witness :
    info (staticEngine "hello") req0 =
        .ok ⟨200, defaultContentType, "hello"⟩ ∧
      (⟨200, defaultContentType, "hello"⟩ : HttpResponse).status = 200 :=
  ⟨info_staticEngine "hello" req0,
    info_status_200 (staticEngine "hello") req0
      ⟨200, defaultContentType, "hello"⟩ (info_staticEngine "hello" req0)⟩

end Web.Info
